import Mathlib

/-!
Verification of the race-orchestration subsystem.

Shallow embedding of the game-loop race orchestration code:
`sim/game_loop.py` (per-lap resource model, decision-point wrapper,
strategy application, precomputation guard), `sim/quick_sim.py`
(decision detector, strategy variations) and `api/main.py`
(heuristic fallback recommendations, websocket message handling,
decision timeout branch).  Python floats are modelled as rationals,
Python string event tags as a closed inductive type, Python sets of
handled event tags as lists with membership.
-/

/-- Event tags produced or consumed by the decision subsystem.
Mirrors the string constants of `quick_sim.check_decision_point`,
`game_loop.check_for_decision_point` and `game_loop._get_current_event_type`. -/
inductive EventType where
  | RAIN_START
  | RAIN_STOP
  | SAFETY_CAR
  | BATTERY_LOW
  | BATTERY_CRITICAL
  | TIRE_CRITICAL
  | OVERTAKE_OPPORTUNITY
  | STRATEGIC_CHECKPOINT
deriving DecidableEq, Repr

open EventType

/-- The six strategy dials (`quick_sim.generate_strategy_variations` dict keys,
spec: StrategyDecision). -/
structure StrategyDecision where
  energy_deployment : ℚ
  tire_management : ℚ
  fuel_strategy : ℚ
  ers_mode : ℚ
  overtake_aggression : ℚ
  defense_intensity : ℚ
deriving DecidableEq, Repr

/-- `quick_sim.RaceState` dataclass. -/
structure RaceState where
  lap : ℤ
  total_laps : ℤ
  position : ℤ
  battery_soc : ℚ
  tire_life : ℚ
  fuel_remaining : ℚ
  gap_ahead : ℚ := 0
  gap_behind : ℚ := 0
  rain : Bool := false
  safety_car : Bool := false
deriving DecidableEq, Repr

/-- Result of one per-lap advance of a single car
(the fields written by `game_loop._simulate_player_lap` /
`_simulate_opponent_laps` before the cumulative-time update). -/
structure LapResult where
  battery_soc : ℚ
  tire_life : ℚ
  fuel_remaining : ℚ
  lap_time : ℚ
deriving DecidableEq, Repr

/-- `game_sessions.PlayerState` dataclass. -/
structure PlayerState where
  position : ℤ
  battery_soc : ℚ
  tire_life : ℚ
  fuel_remaining : ℚ
  lap_time : ℚ
  cumulative_time : ℚ
  speed : ℚ := 0
  gap_to_leader : ℚ := 0
  lap_progress : ℚ := 0
  energy_deployment : ℚ := 60
  tire_management : ℚ := 70
  fuel_strategy : ℚ := 65
  ers_mode : ℚ := 60
  overtake_aggression : ℚ := 50
  defense_intensity : ℚ := 50
deriving DecidableEq, Repr

/-- `game_sessions.OpponentState` dataclass. -/
structure OpponentState where
  name : String
  agent_type : String
  position : ℤ
  lap_progress : ℚ
  battery_soc : ℚ
  tire_life : ℚ
  fuel_remaining : ℚ
  cumulative_time : ℚ
  speed : ℚ := 0
  gap_to_leader : ℚ := 0
  last_lap_time : ℚ := 90
deriving DecidableEq, Repr

/-- One entry of `GameState.decision_history`
(the dict appended by `game_loop.apply_strategy_choice`). -/
structure DecisionRecord where
  lap : ℤ
  event_type : EventType
  strategy_chosen : ℤ
  strategy_params : StrategyDecision
deriving DecidableEq, Repr

/-- One strategy card of `api/main.generate_heuristic_recommendations`. -/
structure StrategyCard where
  strategy_id : ℤ
  strategy_name : String
  win_rate : ℚ
  rationale : String
  confidence : ℚ
  strategy_params : StrategyDecision
deriving DecidableEq, Repr

/-- Shape of a recommendations dict as consumed by the decision-point
branch of `api/main.run_race_loop` (`recommended`, `avoid`,
`latency_ms`, `used_fallback`, `pre_computed`). -/
structure RecResult where
  recommended : List StrategyCard
  avoid : Option StrategyCard
  latency_ms : ℚ
  used_fallback : Bool
  pre_computed : Bool := false
deriving DecidableEq, Repr

/-- `game_sessions.GameState` dataclass (fields relevant to the
orchestration core; the asyncio pause event is modelled by the booleans
returned by the handlers below). -/
structure GameState where
  session_id : String
  player_name : String
  current_lap : ℤ
  total_laps : ℤ
  is_paused : Bool
  is_complete : Bool
  player : PlayerState
  opponents : List OpponentState := []
  rain_lap : Option ℤ := none
  safety_car_lap : Option ℤ := none
  is_raining : Bool := false
  safety_car_active : Bool := false
  current_decision_point : Option (EventType × RecResult) := none
  decision_history : List DecisionRecord := []
deriving DecidableEq, Repr

/-- One lap of the per-car resource model and lap-time computation of
`game_loop._simulate_player_lap` (lines 105-153; the identical formulas
are repeated for opponents in `_simulate_opponent_laps`, lines 188-227).
`jitter` stands for the `np.random.uniform` draw and `mult` for
`self.lap_time_multiplier`. -/
def simulateLapDynamics (battery tire fuel energy tire_mgmt fuel_strat ers : ℚ)
    (raining sc : Bool) (jitter mult : ℚ) : LapResult :=
  let battery_drain := energy / 100 * 1.2
  let battery_gain := ers / 100 * 0.8
  let battery2 := max 0 (min 100 (battery - battery_drain + battery_gain))
  let base_tire_wear := (100 - tire_mgmt) / 100 * 1.5
  let tire_wear := if tire_mgmt < 50 then base_tire_wear * 2.0 else base_tire_wear
  let tire2 := max 0 (tire - tire_wear)
  let base_fuel_burn := (100 - fuel_strat) / 100 * 0.5
  let fuel_burn := if fuel_strat < 50 then base_fuel_burn * 1.5 else base_fuel_burn
  let fuel2 := max 0 (fuel - fuel_burn)
  let t1 : ℚ := 90.0 - energy / 100 * 0.6
  let t2 := t1 + (100 - tire_mgmt) / 100 * 0.4
  let t3 := if battery2 < 20 then t2 + (20 - battery2) * 0.04 else t2
  let t4 := if raining then t3 + 2.0 else t3
  let t5 := if sc then t4 + 30.0 else t4
  let t6 := t5 + jitter
  { battery_soc := battery2, tire_life := tire2, fuel_remaining := fuel2,
    lap_time := t6 / mult }

/-- `game_loop._simulate_player_lap`: resource update, lap time, and the
`player.cumulative_time += lap_time` mutation. -/
def playerAdvance (p : PlayerState) (raining sc : Bool) (jitter mult : ℚ) : PlayerState :=
  let r := simulateLapDynamics p.battery_soc p.tire_life p.fuel_remaining
      p.energy_deployment p.tire_management p.fuel_strategy p.ers_mode
      raining sc jitter mult
  { p with battery_soc := r.battery_soc, tire_life := r.tire_life,
           fuel_remaining := r.fuel_remaining, lap_time := r.lap_time,
           cumulative_time := p.cumulative_time + r.lap_time }

/-- Substring test, modelling the Python operator `pat in s`
(for a non-empty pattern, `splitOn` yields more than one piece exactly
when the pattern occurs). -/
def strContainsSub (s pat : String) : Bool :=
  decide (1 < (s.splitOn pat).length)

/-- The fixed opponent dial tuples of `_simulate_opponent_laps`
(energy, tire_mgmt, fuel_strat, ers), selected by substring checks on
the opponent's `agent_type`. -/
def opponentDials (agent_type : String) : ℚ × ℚ × ℚ × ℚ :=
  if strContainsSub agent_type "Verstappen" then (70, 80, 70, 70)
  else if strContainsSub agent_type "Hamilton" then (60, 90, 75, 65)
  else if strContainsSub agent_type "Alonso" then (55, 85, 80, 75)
  else if strContainsSub agent_type "Aggressive" then (85, 60, 55, 80)
  else if strContainsSub agent_type "Tire" then (50, 95, 75, 60)
  else if strContainsSub agent_type "Energy" then (90, 70, 60, 85)
  else (60, 75, 70, 65)

/-- One opponent's lap in `_simulate_opponent_laps`: same dynamics as the
player with agent-specific fixed dials, writing `cumulative_time` and
`last_lap_time`. -/
def opponentAdvance (o : OpponentState) (raining sc : Bool) (jitter mult : ℚ) : OpponentState :=
  let d := opponentDials o.agent_type
  let r := simulateLapDynamics o.battery_soc o.tire_life o.fuel_remaining
      d.1 d.2.1 d.2.2.1 d.2.2.2 raining sc jitter mult
  { o with battery_soc := r.battery_soc, tire_life := r.tire_life,
           fuel_remaining := r.fuel_remaining,
           cumulative_time := o.cumulative_time + r.lap_time,
           last_lap_time := r.lap_time }

/-- `quick_sim.check_decision_point` (lines 373-415): five threshold
predicates in a fixed order, each gated on its tag not being in the
handled set. -/
def checkDecisionPoint (s : RaceState) (handled : List EventType) : Option EventType :=
  if s.rain = true ∧ RAIN_START ∉ handled then some RAIN_START
  else if s.safety_car = true ∧ SAFETY_CAR ∉ handled then some SAFETY_CAR
  else if s.battery_soc < 15 ∧ BATTERY_LOW ∉ handled then some BATTERY_LOW
  else if s.tire_life < 25 ∧ TIRE_CRITICAL ∉ handled then some TIRE_CRITICAL
  else if s.gap_ahead < 1 ∧ s.gap_ahead > 0 ∧ OVERTAKE_OPPORTUNITY ∉ handled then
    some OVERTAKE_OPPORTUNITY
  else none

/-- Modelled from the spec (section 4.2 words, for refinement comparison
with `checkDecisionPoint`): first unhandled match among the four listed
predicates, in priority order rain, safety car, battery below 15, tire
below 25, else none. -/
def specDetectFour (s : RaceState) (handled : List EventType) : Option EventType :=
  if s.rain = true ∧ RAIN_START ∉ handled then some RAIN_START
  else if s.safety_car = true ∧ SAFETY_CAR ∉ handled then some SAFETY_CAR
  else if s.battery_soc < 15 ∧ BATTERY_LOW ∉ handled then some BATTERY_LOW
  else if s.tire_life < 25 ∧ TIRE_CRITICAL ∉ handled then some TIRE_CRITICAL
  else none

/-- The `RaceState` built by `game_loop.check_for_decision_point` and
`apply_strategy_choice` from the session state: the two gap fields are
always 0. -/
def raceStateOf (g : GameState) : RaceState :=
  { lap := g.current_lap, total_laps := g.total_laps,
    position := g.player.position, battery_soc := g.player.battery_soc,
    tire_life := g.player.tire_life, fuel_remaining := g.player.fuel_remaining,
    gap_ahead := 0, gap_behind := 0,
    rain := g.is_raining, safety_car := g.safety_car_active }

/-- `high_impact_events` set of `game_loop.check_for_decision_point`. -/
def highImpactEvents : List EventType :=
  [RAIN_START, RAIN_STOP, SAFETY_CAR, BATTERY_LOW, BATTERY_CRITICAL, TIRE_CRITICAL]

/-- `game_loop.check_for_decision_point` (lines 319-364): run the
detector on the gap-zero race state; on a high-impact hit, add the tag
to the handled set and report the trigger.  Returns the triggered event
(if any) together with the updated handled set. -/
def checkForDecisionPoint (g : GameState) (handled : List EventType) :
    Option EventType × List EventType :=
  match checkDecisionPoint (raceStateOf g) handled with
  | some e => if e ∈ highImpactEvents then (some e, e :: handled) else (none, handled)
  | none => (none, handled)

/-- `quick_sim.generate_strategy_variations`: three fixed dial settings
(aggressive, balanced, conservative) per event type; the race state
argument is accepted but unused, as in the source. -/
def generateStrategyVariations (_current_state : RaceState) (event_type : EventType) :
    List StrategyDecision :=
  if event_type = RAIN_START then
    [ { energy_deployment := 85, tire_management := 70, fuel_strategy := 60,
        ers_mode := 80, overtake_aggression := 90, defense_intensity := 40 },
      { energy_deployment := 60, tire_management := 80, fuel_strategy := 70,
        ers_mode := 65, overtake_aggression := 60, defense_intensity := 55 },
      { energy_deployment := 35, tire_management := 90, fuel_strategy := 85,
        ers_mode := 50, overtake_aggression := 30, defense_intensity := 70 } ]
  else if event_type = TIRE_CRITICAL then
    [ { energy_deployment := 90, tire_management := 40, fuel_strategy := 60,
        ers_mode := 85, overtake_aggression := 85, defense_intensity := 35 },
      { energy_deployment := 60, tire_management := 70, fuel_strategy := 65,
        ers_mode := 65, overtake_aggression := 55, defense_intensity := 60 },
      { energy_deployment := 30, tire_management := 95, fuel_strategy := 80,
        ers_mode := 50, overtake_aggression := 25, defense_intensity := 75 } ]
  else if event_type = BATTERY_LOW then
    [ { energy_deployment := 70, tire_management := 75, fuel_strategy := 65,
        ers_mode := 95, overtake_aggression := 60, defense_intensity := 50 },
      { energy_deployment := 45, tire_management := 80, fuel_strategy := 70,
        ers_mode := 85, overtake_aggression := 45, defense_intensity := 60 },
      { energy_deployment := 20, tire_management := 85, fuel_strategy := 80,
        ers_mode := 95, overtake_aggression := 25, defense_intensity := 70 } ]
  else if event_type = SAFETY_CAR then
    [ { energy_deployment := 90, tire_management := 65, fuel_strategy := 55,
        ers_mode := 80, overtake_aggression := 95, defense_intensity := 30 },
      { energy_deployment := 65, tire_management := 75, fuel_strategy := 65,
        ers_mode := 70, overtake_aggression := 65, defense_intensity := 55 },
      { energy_deployment := 40, tire_management := 85, fuel_strategy := 80,
        ers_mode := 60, overtake_aggression := 35, defense_intensity := 80 } ]
  else
    [ { energy_deployment := 80, tire_management := 70, fuel_strategy := 60,
        ers_mode := 80, overtake_aggression := 85, defense_intensity := 45 },
      { energy_deployment := 60, tire_management := 80, fuel_strategy := 70,
        ers_mode := 65, overtake_aggression := 60, defense_intensity := 55 },
      { energy_deployment := 35, tire_management := 90, fuel_strategy := 85,
        ers_mode := 50, overtake_aggression := 30, defense_intensity := 70 } ]

/-- `game_loop._get_current_event_type`. -/
def getCurrentEventType (g : GameState) (handled : List EventType) : EventType :=
  if g.is_raining = true ∧ RAIN_START ∈ handled then RAIN_START
  else if g.safety_car_active = true ∧ SAFETY_CAR ∈ handled then SAFETY_CAR
  else if g.player.battery_soc < 15 ∧ BATTERY_LOW ∈ handled then BATTERY_LOW
  else if g.player.tire_life < 25 ∧ TIRE_CRITICAL ∈ handled then TIRE_CRITICAL
  else STRATEGIC_CHECKPOINT

/-- Fallback strategy record (never selected: the guard ensures the
index is in range, mirroring `strategy_params[strategy_id]`). -/
def defaultStrategy : StrategyDecision :=
  { energy_deployment := 0, tire_management := 0, fuel_strategy := 0,
    ers_mode := 0, overtake_aggression := 0, defense_intensity := 0 }

/-- `game_loop.apply_strategy_choice` (lines 419-464): regenerate the
strategy variations, and when `0 <= strategy_id < len(strategy_params)`
copy the chosen variation's six dials into the player state and append
one record to `decision_history`, returning True; otherwise return
False with the state untouched. -/
def applyStrategyChoice (g : GameState) (handled : List EventType) (strategy_id : ℤ) :
    Bool × GameState :=
  let current_state := raceStateOf g
  let event_type := getCurrentEventType g handled
  let strategy_params := generateStrategyVariations current_state event_type
  if 0 ≤ strategy_id ∧ strategy_id < (strategy_params.length : ℤ) then
    let chosen := strategy_params.getD strategy_id.toNat defaultStrategy
    (true,
      { g with
        player := { g.player with
          energy_deployment := chosen.energy_deployment,
          tire_management := chosen.tire_management,
          fuel_strategy := chosen.fuel_strategy,
          ers_mode := chosen.ers_mode,
          overtake_aggression := chosen.overtake_aggression,
          defense_intensity := chosen.defense_intensity },
        decision_history := g.decision_history ++
          [ { lap := g.current_lap, event_type := event_type,
              strategy_chosen := strategy_id, strategy_params := chosen } ] })
  else (false, g)

/-- `strategy_names` list used throughout the game loop and API. -/
def strategyNames : List String := ["Aggressive", "Balanced", "Conservative"]

/-- The `asyncio.wait_for` timeout of the decision pause in
`api/main.run_race_loop` (seconds). -/
def decisionTimeoutSeconds : ℚ := 300

/-- The `asyncio.TimeoutError` branch of `run_race_loop` (lines 855-859):
auto-apply strategy 1 and set the pause event (second component `true`
models `pause_event.set()`, i.e. the race resumes). -/
def timeoutAutoResolve (g : GameState) (handled : List EventType) : GameState × Bool :=
  let r := applyStrategyChoice g handled 1
  (r.2, true)

/-- `api/main.generate_heuristic_recommendations` (lines 309-368):
three fixed strategy cards; returns balanced then aggressive as
recommended, conservative to avoid, zero latency, fallback flag set.
The two arguments are accepted but unused, as in the source. -/
def generateHeuristicRecommendations (_current_state : RaceState) (_event_type : EventType) :
    RecResult :=
  let aggressive : StrategyCard :=
    { strategy_id := 0, strategy_name := "Aggressive", win_rate := 25,
      rationale := "High risk in rain. Push hard with electric power but tires will wear fast.",
      confidence := 0.6,
      strategy_params :=
        { energy_deployment := 85, tire_management := 50,
          fuel_strategy := 55, ers_mode := 80, overtake_aggression := 85,
          defense_intensity := 60 } }
  let balanced : StrategyCard :=
    { strategy_id := 1, strategy_name := "Balanced", win_rate := 45,
      rationale := "Moderate pace with careful tire management. Best overall approach in rain.",
      confidence := 0.8,
      strategy_params :=
        { energy_deployment := 60, tire_management := 75,
          fuel_strategy := 70, ers_mode := 65, overtake_aggression := 55,
          defense_intensity := 65 } }
  let conservative : StrategyCard :=
    { strategy_id := 2, strategy_name := "Conservative", win_rate := 15,
      rationale := "Very safe but slow. Risk dropping positions to faster cars.",
      confidence := 0.7,
      strategy_params :=
        { energy_deployment := 35, tire_management := 90,
          fuel_strategy := 85, ers_mode := 50, overtake_aggression := 30,
          defense_intensity := 70 } }
  { recommended := [balanced, aggressive], avoid := some conservative,
    latency_ms := 0, used_fallback := true }

/-- The recommendation-selection branch of `run_race_loop`
(lines 813-824): use the precomputed cache only when the firing event is
`RAIN_START` and the cache is non-empty; otherwise take the instant
heuristic fallback.  No advisory or simulation call occurs on either
branch of this pause path. -/
def selectRecommendations (s : RaceState) (e : EventType) (cached : Option RecResult) :
    RecResult :=
  if h : e = RAIN_START ∧ cached.isSome then
    { cached.get h.2 with pre_computed := true }
  else
    { generateHeuristicRecommendations s e with pre_computed := false }

/-- The `DECISION_POINT` message of `run_race_loop` (lines 827-839). -/
structure DecisionPointMsg where
  event_type : EventType
  lap : ℤ
  position : ℤ
  battery_soc : ℚ
  tire_life : ℚ
  fuel_remaining : ℚ
  recommended : List StrategyCard
  avoid : Option StrategyCard
  latency_ms : ℚ
  used_fallback : Bool
deriving DecidableEq, Repr

/-- Build the `DECISION_POINT` message from the firing state and the
selected recommendations. -/
def buildDecisionPointMsg (s : RaceState) (e : EventType) (cached : Option RecResult) :
    DecisionPointMsg :=
  let recs := selectRecommendations s e cached
  { event_type := e, lap := s.lap, position := s.position,
    battery_soc := s.battery_soc, tire_life := s.tire_life,
    fuel_remaining := s.fuel_remaining,
    recommended := recs.recommended, avoid := recs.avoid,
    latency_ms := recs.latency_ms, used_fallback := recs.used_fallback }

/-- `game_loop.should_pre_compute_next_lap` (lines 479-505): propose a
precomputation job when a scheduled event is one lap away, not yet
active, unhandled, and the session-wide `pre_compute_started` flag is
clear. -/
def shouldPreComputeNextLap (g : GameState) (handled : List EventType) (started : Bool) :
    Option EventType :=
  let next_lap := g.current_lap + 1
  if g.rain_lap = some next_lap ∧ g.is_raining = false ∧
      RAIN_START ∉ handled ∧ started = false then some RAIN_START
  else if g.safety_car_lap = some next_lap ∧ g.safety_car_active = false ∧
      SAFETY_CAR ∉ handled ∧ started = false then some SAFETY_CAR
  else none

/-- One precomputation check: a dispatched job sets the session-wide
started flag (as `run_race_loop` sets `orchestrator.pre_compute_started`
before dispatching). -/
def preComputeStep (g : GameState) (handled : List EventType) (started : Bool) :
    Option EventType × Bool :=
  match shouldPreComputeNextLap g handled started with
  | some e => (some e, true)
  | none => (none, started)

/-- The events dispatched over a sequence of precomputation checks,
threading the started flag. -/
def preComputeTrace (checks : List (GameState × List EventType)) (started : Bool) :
    List EventType :=
  match checks with
  | [] => []
  | (g, h) :: rest =>
    match preComputeStep g h started with
    | (some e, st) => e :: preComputeTrace rest st
    | (none, st) => preComputeTrace rest st

/-- Client messages of the websocket protocol that can reach the
running-session loop of `api/main.game_websocket`.  The `START_GAME`
branch (session creation) is outside the scope of the handler modelled
here; `unknownType` stands for any message whose `type` tag matches no
branch of the if/elif chain. -/
inductive ClientMsg where
  | selectStrategy (strategy_id : ℤ)
  | unknownType (tag : String)
deriving DecidableEq, Repr

/-- Server messages sent by the `SELECT_STRATEGY` branch. -/
inductive ServerMsg where
  | STRATEGY_APPLIED (strategy_id : ℤ)
  | ERROR (message : String)
deriving DecidableEq, Repr

/-- Result of handling one client message: optional response, updated
session state, whether the pause event was set (race resumed), and
whether the receive loop keeps running. -/
structure HandlerResult where
  response : Option ServerMsg
  game : GameState
  resumed : Bool
  continues : Bool
deriving DecidableEq, Repr

/-- The message dispatch of `api/main.game_websocket` (lines 546-621)
for a session whose race loop is in its receive loop.  `hasSession`
models `orchestrator is not None`.  `SELECT_STRATEGY` applies the
choice: on success it clears `current_decision_point`, confirms with
`STRATEGY_APPLIED` and sets the pause event; on failure it answers
`ERROR`.  A message with any other `type` tag matches no branch of the
if/elif chain and falls through to the next loop iteration. -/
def handleClientMessage (hasSession : Bool) (g : GameState) (handled : List EventType)
    (msg : ClientMsg) : HandlerResult :=
  match msg with
  | .selectStrategy strategy_id =>
    if hasSession = false then
      { response := some (.ERROR "No active game session"), game := g,
        resumed := false, continues := true }
    else
      let r := applyStrategyChoice g handled strategy_id
      if r.1 then
        { response := some (.STRATEGY_APPLIED strategy_id),
          game := { r.2 with current_decision_point := none },
          resumed := true, continues := true }
      else
        { response := some (.ERROR "Invalid strategy selection"), game := r.2,
          resumed := false, continues := true }
  | .unknownType _ =>
    { response := none, game := g, resumed := false, continues := true }

/-- The strategy variation picked by `apply_strategy_choice` for a given
(guard-validated) strategy id. -/
def chosenStrategyOf (g : GameState) (handled : List EventType) (strategy_id : ℤ) :
    StrategyDecision :=
  (generateStrategyVariations (raceStateOf g) (getCurrentEventType g handled)).getD
    strategy_id.toNat defaultStrategy

/-- Concrete player fixture (full resources, default dials). -/
def testPlayer : PlayerState :=
  { position := 1, battery_soc := 100, tire_life := 100, fuel_remaining := 100,
    lap_time := 90, cumulative_time := 0 }

/-- Concrete opponent fixture. -/
def testOpponent : OpponentState :=
  { name := "Max Verstappen", agent_type := "VerstappenStyle", position := 2,
    lap_progress := 0, battery_soc := 100, tire_life := 100, fuel_remaining := 100,
    cumulative_time := 0 }

/-- Concrete session fixture. -/
def testGame : GameState :=
  { session_id := "s1", player_name := "Player", current_lap := 5, total_laps := 57,
    is_paused := false, is_complete := false, player := testPlayer,
    opponents := [testOpponent] }

-- ==========================================================================
-- Theorems
-- ==========================================================================

/-- Every event-type branch of `generate_strategy_variations` returns
exactly three strategies. -/
theorem generateStrategyVariations_length (cs : RaceState) (et : EventType) :
    (generateStrategyVariations cs et).length = 3 := by
  cases et <;> rfl

/-- The opponent dial tuples all lie within the [0,100] dial range. -/
theorem opponentDials_bounds (a : String) :
    0 ≤ (opponentDials a).1 ∧ (opponentDials a).1 ≤ 100 ∧
    0 ≤ (opponentDials a).2.1 ∧ (opponentDials a).2.1 ≤ 100 ∧
    0 ≤ (opponentDials a).2.2.1 ∧ (opponentDials a).2.2.1 ≤ 100 ∧
    0 ≤ (opponentDials a).2.2.2 ∧ (opponentDials a).2.2.2 ≤ 100 := by
  unfold opponentDials
  split_ifs <;> norm_num

/-- Core bounds of one lap of the resource model: battery clamped to
[0,100], tire clamped to [0,100] (given an in-range starting value and
dial), fuel clamped below at 0, and a strictly positive lap time. -/
theorem simulateLapDynamics_bounds
    (battery tire fuel energy tire_mgmt fuel_strat ers : ℚ) (raining sc : Bool)
    (jitter mult : ℚ)
    (ht1 : tire ≤ 100) (htm1 : tire_mgmt ≤ 100) (he1 : energy ≤ 100)
    (hj : -1 ≤ jitter) (hm : 0 < mult) :
    0 ≤ (simulateLapDynamics battery tire fuel energy tire_mgmt fuel_strat ers
          raining sc jitter mult).battery_soc ∧
    (simulateLapDynamics battery tire fuel energy tire_mgmt fuel_strat ers
          raining sc jitter mult).battery_soc ≤ 100 ∧
    0 ≤ (simulateLapDynamics battery tire fuel energy tire_mgmt fuel_strat ers
          raining sc jitter mult).tire_life ∧
    (simulateLapDynamics battery tire fuel energy tire_mgmt fuel_strat ers
          raining sc jitter mult).tire_life ≤ 100 ∧
    0 ≤ (simulateLapDynamics battery tire fuel energy tire_mgmt fuel_strat ers
          raining sc jitter mult).fuel_remaining ∧
    0 < (simulateLapDynamics battery tire fuel energy tire_mgmt fuel_strat ers
          raining sc jitter mult).lap_time := by
  simp only [simulateLapDynamics]
  refine ⟨le_max_left _ _, max_le (by norm_num) (min_le_left _ _),
    le_max_left _ _, ?_, le_max_left _ _, ?_⟩
  · split_ifs <;> exact max_le (by norm_num) (by linarith)
  · apply div_pos ?_ hm
    have hB0 : (0:ℚ) ≤ max 0 (min 100 (battery - energy / 100 * 1.2 + ers / 100 * 0.8)) :=
      le_max_left _ _
    split_ifs <;> linarith

/-- C1: for every car state whose resource fields start within their
ranges and every strategy decision, after one per-lap advance of that
car (player or opponent): battery_soc and tire_life lie in [0,100],
fuel_remaining is nonnegative, and cumulative_time strictly increases
by exactly the lap_time produced for that lap. -/
theorem advance_lap_resource_invariants
    (p : PlayerState) (o : OpponentState) (raining sc : Bool) (jp jo mult : ℚ)
    (hpb : 0 ≤ p.battery_soc ∧ p.battery_soc ≤ 100)
    (hpt : 0 ≤ p.tire_life ∧ p.tire_life ≤ 100)
    (hpf : 0 ≤ p.fuel_remaining)
    (hpe : 0 ≤ p.energy_deployment ∧ p.energy_deployment ≤ 100)
    (hptm : 0 ≤ p.tire_management ∧ p.tire_management ≤ 100)
    (hpfs : 0 ≤ p.fuel_strategy ∧ p.fuel_strategy ≤ 100)
    (hpers : 0 ≤ p.ers_mode ∧ p.ers_mode ≤ 100)
    (hjp : -(1/2) ≤ jp ∧ jp ≤ 1/2)
    (hob : 0 ≤ o.battery_soc ∧ o.battery_soc ≤ 100)
    (hot : 0 ≤ o.tire_life ∧ o.tire_life ≤ 100)
    (hof : 0 ≤ o.fuel_remaining)
    (hjo : -1 ≤ jo ∧ jo ≤ 1)
    (hm : 0 < mult) :
    (0 ≤ (playerAdvance p raining sc jp mult).battery_soc ∧
      (playerAdvance p raining sc jp mult).battery_soc ≤ 100) ∧
    (0 ≤ (playerAdvance p raining sc jp mult).tire_life ∧
      (playerAdvance p raining sc jp mult).tire_life ≤ 100) ∧
    0 ≤ (playerAdvance p raining sc jp mult).fuel_remaining ∧
    (playerAdvance p raining sc jp mult).cumulative_time =
      p.cumulative_time + (playerAdvance p raining sc jp mult).lap_time ∧
    p.cumulative_time < (playerAdvance p raining sc jp mult).cumulative_time ∧
    (0 ≤ (opponentAdvance o raining sc jo mult).battery_soc ∧
      (opponentAdvance o raining sc jo mult).battery_soc ≤ 100) ∧
    (0 ≤ (opponentAdvance o raining sc jo mult).tire_life ∧
      (opponentAdvance o raining sc jo mult).tire_life ≤ 100) ∧
    0 ≤ (opponentAdvance o raining sc jo mult).fuel_remaining ∧
    (opponentAdvance o raining sc jo mult).cumulative_time =
      o.cumulative_time + (opponentAdvance o raining sc jo mult).last_lap_time ∧
    o.cumulative_time < (opponentAdvance o raining sc jo mult).cumulative_time := by
  have Hp := simulateLapDynamics_bounds p.battery_soc p.tire_life p.fuel_remaining
    p.energy_deployment p.tire_management p.fuel_strategy p.ers_mode raining sc jp mult
    hpt.2 hptm.2 hpe.2 (by linarith [hjp.1]) hm
  have Hd := opponentDials_bounds o.agent_type
  have Ho := simulateLapDynamics_bounds o.battery_soc o.tire_life o.fuel_remaining
    (opponentDials o.agent_type).1 (opponentDials o.agent_type).2.1
    (opponentDials o.agent_type).2.2.1 (opponentDials o.agent_type).2.2.2 raining sc jo mult
    hot.2 Hd.2.2.2.1 Hd.2.1 hjo.1 hm
  simp only [playerAdvance, opponentAdvance]
  refine ⟨⟨Hp.1, Hp.2.1⟩, ⟨Hp.2.2.1, Hp.2.2.2.1⟩, Hp.2.2.2.2.1, trivial, ?_,
    ⟨Ho.1, Ho.2.1⟩, ⟨Ho.2.2.1, Ho.2.2.2.1⟩, Ho.2.2.2.2.1, trivial, ?_⟩
  · have := Hp.2.2.2.2.2; linarith
  · have := Ho.2.2.2.2.2; linarith

/-- Witness for C1 at a concrete state: full resources, default dials,
zero jitter, multiplier 5; cumulative time strictly increases for both
the player and the opponent. -/
theorem advance_lap_resource_invariants_witness :
    testPlayer.cumulative_time < (playerAdvance testPlayer false false 0 5).cumulative_time ∧
    testOpponent.cumulative_time <
      (opponentAdvance testOpponent false false 0 5).cumulative_time := by
  have h := advance_lap_resource_invariants testPlayer testOpponent false false 0 0 5
    (by norm_num [testPlayer]) (by norm_num [testPlayer]) (by norm_num [testPlayer])
    (by norm_num [testPlayer]) (by norm_num [testPlayer]) (by norm_num [testPlayer])
    (by norm_num [testPlayer]) (by norm_num)
    (by norm_num [testOpponent]) (by norm_num [testOpponent]) (by norm_num [testOpponent])
    (by norm_num) (by norm_num)
  exact ⟨h.2.2.2.2.1, h.2.2.2.2.2.2.2.2.2⟩

/-- Counterexample to C2: with all else equal, a lap advanced with
fuel_remaining = 0 produces exactly the same lap time as a lap advanced
with fuel_remaining = 100 (both 89.76s): no fuel-exhaustion time
penalty exists in the game-loop resource model. -/
theorem fuel_exhaustion_counterexample :
    (simulateLapDynamics 50 50 0 60 70 65 60 false false 0 1).lap_time =
      (simulateLapDynamics 50 50 100 60 70 65 60 false false 0 1).lap_time ∧
    (simulateLapDynamics 50 50 0 60 70 65 60 false false 0 1).lap_time = 89.76 := by
  constructor
  · rfl
  · norm_num [simulateLapDynamics]

/-- C2 amended: running out of fuel never raises (the advance is total)
and degrades nothing in the lap time: the computed lap time is
independent of the fuel level, and at fuel 0 the fuel level stays
clamped at 0 on every subsequent lap. -/
theorem fuel_exhaustion_no_penalty
    (battery tire energy tire_mgmt fuel_strat ers : ℚ) (raining sc : Bool)
    (jitter mult f1 f2 : ℚ) (hfs : fuel_strat ≤ 100) :
    (simulateLapDynamics battery tire f1 energy tire_mgmt fuel_strat ers
        raining sc jitter mult).lap_time =
      (simulateLapDynamics battery tire f2 energy tire_mgmt fuel_strat ers
        raining sc jitter mult).lap_time ∧
    (simulateLapDynamics battery tire 0 energy tire_mgmt fuel_strat ers
        raining sc jitter mult).fuel_remaining = 0 := by
  constructor
  · rfl
  · simp only [simulateLapDynamics]
    split_ifs <;> exact max_eq_left (by linarith)

/-- Witness for the amended C2 at concrete inputs. -/
theorem fuel_exhaustion_no_penalty_witness :
    (65:ℚ) ≤ 100 ∧
    (simulateLapDynamics 50 50 0 60 70 65 60 false false 0 1).lap_time =
      (simulateLapDynamics 50 50 5 60 70 65 60 false false 0 1).lap_time ∧
    (simulateLapDynamics 50 50 0 60 70 65 60 false false 0 1).fuel_remaining = 0 := by
  refine ⟨by norm_num, ?_⟩
  exact fuel_exhaustion_no_penalty 50 50 60 70 65 60 false false 0 1 0 5 (by norm_num)

/-- Counterexample to C3: two laps run under an active safety car with
different energy deployments have different lap times (120 vs 119.4),
and adding rain under the safety car changes the lap time again (122):
the safety-car condition does not override the other contributions to a
fixed slow-lap value. -/
theorem safety_car_counterexample :
    (simulateLapDynamics 100 100 100 0 100 100 0 false true 0 1).lap_time = 120 ∧
    (simulateLapDynamics 100 100 100 100 100 100 100 false true 0 1).lap_time = 119.4 ∧
    (simulateLapDynamics 100 100 100 0 100 100 0 true true 0 1).lap_time = 122 ∧
    (120 : ℚ) ≠ 119.4 := by
  refine ⟨?_, ?_, ?_, by norm_num⟩ <;> norm_num [simulateLapDynamics]

/-- C3 amended: an active safety car adds a fixed 30.0-second penalty
(scaled by the lap-time multiplier) on top of the energy bonus,
tire-management penalty, battery penalty, rain penalty and jitter,
combining additively with them rather than overriding them. -/
theorem safety_car_additive
    (battery tire fuel energy tire_mgmt fuel_strat ers : ℚ) (raining : Bool)
    (jitter mult : ℚ) :
    (simulateLapDynamics battery tire fuel energy tire_mgmt fuel_strat ers
        raining true jitter mult).lap_time =
      (simulateLapDynamics battery tire fuel energy tire_mgmt fuel_strat ers
        raining false jitter mult).lap_time + 30 / mult := by
  simp only [simulateLapDynamics]
  norm_num
  split_ifs <;> ring

/-- The decision detector never returns an event tag that is already in
the handled set. -/
theorem checkDecisionPoint_not_handled (s : RaceState) (handled : List EventType)
    (e : EventType) (hfire : checkDecisionPoint s handled = some e) : e ∉ handled := by
  unfold checkDecisionPoint at hfire
  split_ifs at hfire with h1 h2 h3 h4 h5
  · exact (Option.some.inj hfire) ▸ h1.2
  · exact (Option.some.inj hfire) ▸ h2.2
  · exact (Option.some.inj hfire) ▸ h3.2
  · exact (Option.some.inj hfire) ▸ h4.2
  · exact (Option.some.inj hfire) ▸ h5.2.2

/-- C4: the decision detector is idempotent: it is a pure function, so
two calls on the same unmutated inputs return the same result; an event
tag already recorded in the handled set is never returned; and once a
fired tag is recorded as handled, no later call on any state returns it
again, so each event type fires at most once per session. -/
theorem decision_detector_idempotent (s : RaceState) (handled : List EventType)
    (e : EventType) (hfire : checkDecisionPoint s handled = some e) :
    checkDecisionPoint s handled = checkDecisionPoint s handled ∧
    e ∉ handled ∧
    ∀ s2 : RaceState, checkDecisionPoint s2 (e :: handled) ≠ some e := by
  refine ⟨rfl, checkDecisionPoint_not_handled s handled e hfire, ?_⟩
  intro s2 hc
  exact checkDecisionPoint_not_handled s2 (e :: handled) e hc (List.mem_cons_self e handled)

/-- Witness for C4: a rain state fires RAIN_START on an empty handled
set, and after recording it no state fires RAIN_START again. -/
theorem decision_detector_idempotent_witness :
    RAIN_START ∉ ([] : List EventType) ∧
    ∀ s2 : RaceState, checkDecisionPoint s2 [RAIN_START] ≠ some RAIN_START := by
  have h := decision_detector_idempotent
    { lap := 3, total_laps := 57, position := 1, battery_soc := 100,
      tire_life := 100, fuel_remaining := 100, rain := true } [] RAIN_START (by decide)
  exact ⟨h.2.1, h.2.2⟩

/-- Counterexample to C5: on a race state where none of the four listed
predicates match but the rival gap ahead is strictly between 0 and 1,
the detector returns OVERTAKE_OPPORTUNITY — an event outside the fixed
enumeration — instead of none: the detector has a fifth predicate the
claim omits. -/
theorem detector_priority_counterexample :
    checkDecisionPoint
      { lap := 10, total_laps := 57, position := 3, battery_soc := 50,
        tire_life := 50, fuel_remaining := 50, gap_ahead := 0.5 } [] =
      some OVERTAKE_OPPORTUNITY ∧
    specDetectFour
      { lap := 10, total_laps := 57, position := 3, battery_soc := 50,
        tire_life := 50, fuel_remaining := 50, gap_ahead := 0.5 } [] = none := by
  constructor
  · norm_num [checkDecisionPoint]
  · norm_num [specDetectFour]

/-- C5 amended: the detector checks a fifth, lowest-priority predicate
(0 < gap_ahead < 1, OVERTAKE_OPPORTUNITY); whenever gap_ahead lies
outside (0,1) — in particular on every invocation from the game loop,
which always builds the race state with gap_ahead = 0 — it returns the
first unhandled match among rain, safety car, battery below 15 and tire
below 25 in that priority order, or none when none of them matches. -/
theorem detector_priority_amended (s : RaceState) (handled : List EventType)
    (hgap : ¬(0 < s.gap_ahead ∧ s.gap_ahead < 1)) :
    checkDecisionPoint s handled = specDetectFour s handled ∧
    ∀ g : GameState, (raceStateOf g).gap_ahead = 0 := by
  constructor
  · unfold checkDecisionPoint specDetectFour
    split_ifs with h1 h2 h3 h4 h5
    all_goals first
      | rfl
      | exact absurd ⟨h5.2.1, h5.1⟩ hgap
  · intro g; rfl

/-- Witness for the amended C5 on a gap-zero quiet state. -/
theorem detector_priority_amended_witness :
    checkDecisionPoint
      { lap := 1, total_laps := 57, position := 1, battery_soc := 100,
        tire_life := 100, fuel_remaining := 100 } [] =
      specDetectFour
        { lap := 1, total_laps := 57, position := 1, battery_soc := 100,
          tire_life := 100, fuel_remaining := 100 } [] ∧
    ∀ g : GameState, (raceStateOf g).gap_ahead = 0 :=
  detector_priority_amended _ [] (by norm_num)

/-- The guard of `apply_strategy_choice` fails exactly outside ids
0,1,2: the failure branch returns False and the untouched state. -/
theorem applyStrategyChoice_invalid (g : GameState) (handled : List EventType) (sid : ℤ)
    (h : ¬(0 ≤ sid ∧ sid < 3)) : applyStrategyChoice g handled sid = (false, g) := by
  have h3 : ¬(0 ≤ sid ∧ sid < ((generateStrategyVariations (raceStateOf g)
      (getCurrentEventType g handled)).length : ℤ)) := by
    simpa [generateStrategyVariations_length] using h
  simp only [applyStrategyChoice]
  rw [if_neg h3]

/-- The success branch of `apply_strategy_choice`: dial copy plus one
appended history record. -/
theorem applyStrategyChoice_valid (g : GameState) (handled : List EventType) (sid : ℤ)
    (h : 0 ≤ sid ∧ sid < 3) :
    applyStrategyChoice g handled sid =
      (true,
        { g with
          player := { g.player with
            energy_deployment := (chosenStrategyOf g handled sid).energy_deployment,
            tire_management := (chosenStrategyOf g handled sid).tire_management,
            fuel_strategy := (chosenStrategyOf g handled sid).fuel_strategy,
            ers_mode := (chosenStrategyOf g handled sid).ers_mode,
            overtake_aggression := (chosenStrategyOf g handled sid).overtake_aggression,
            defense_intensity := (chosenStrategyOf g handled sid).defense_intensity },
          decision_history := g.decision_history ++
            [ { lap := g.current_lap, event_type := getCurrentEventType g handled,
                strategy_chosen := sid,
                strategy_params := chosenStrategyOf g handled sid } ] }) := by
  have h3 : 0 ≤ sid ∧ sid < ((generateStrategyVariations (raceStateOf g)
      (getCurrentEventType g handled)).length : ℤ) := by
    simpa [generateStrategyVariations_length] using h
  simp only [applyStrategyChoice, chosenStrategyOf]
  rw [if_pos h3]

/-- C10: `apply_strategy_choice` is atomic in its failure branch: any
strategy id outside 0,1,2 yields False with the game state (dials and
decision history included) completely unchanged; any id in 0,1,2 yields
True, copies the six dials of the chosen variation into the player
state, and appends exactly one record to decision_history. -/
theorem apply_strategy_atomicity (g : GameState) (handled : List EventType) (sid : ℤ) :
    (¬(0 ≤ sid ∧ sid < 3) → applyStrategyChoice g handled sid = (false, g)) ∧
    ((0 ≤ sid ∧ sid < 3) →
      (applyStrategyChoice g handled sid).1 = true ∧
      (applyStrategyChoice g handled sid).2.player.energy_deployment =
        (chosenStrategyOf g handled sid).energy_deployment ∧
      (applyStrategyChoice g handled sid).2.player.tire_management =
        (chosenStrategyOf g handled sid).tire_management ∧
      (applyStrategyChoice g handled sid).2.player.fuel_strategy =
        (chosenStrategyOf g handled sid).fuel_strategy ∧
      (applyStrategyChoice g handled sid).2.player.ers_mode =
        (chosenStrategyOf g handled sid).ers_mode ∧
      (applyStrategyChoice g handled sid).2.player.overtake_aggression =
        (chosenStrategyOf g handled sid).overtake_aggression ∧
      (applyStrategyChoice g handled sid).2.player.defense_intensity =
        (chosenStrategyOf g handled sid).defense_intensity ∧
      (applyStrategyChoice g handled sid).2.decision_history =
        g.decision_history ++
          [ { lap := g.current_lap, event_type := getCurrentEventType g handled,
              strategy_chosen := sid,
              strategy_params := chosenStrategyOf g handled sid } ]) := by
  constructor
  · exact applyStrategyChoice_invalid g handled sid
  · intro h
    rw [applyStrategyChoice_valid g handled sid h]
    exact ⟨rfl, rfl, rfl, rfl, rfl, rfl, rfl, rfl⟩

/-- Witness for C10 at an out-of-range id (5) and an in-range id (1). -/
theorem apply_strategy_atomicity_witness :
    applyStrategyChoice testGame [] 5 = (false, testGame) ∧
    (applyStrategyChoice testGame [] 1).1 = true := by
  exact ⟨(apply_strategy_atomicity testGame [] 5).1 (by norm_num),
    ((apply_strategy_atomicity testGame [] 1).2 (by norm_num)).1⟩

/-- C7: the decision-timeout branch uses a 300-second (5-minute) bound,
auto-applies the fixed default balanced strategy (id 1, named
"Balanced"), appends exactly one auto-selection record to
decision_history, and resumes the race (pause event set). -/
theorem decision_timeout_autoselect (g : GameState) (handled : List EventType) :
    decisionTimeoutSeconds = 300 ∧
    (timeoutAutoResolve g handled).2 = true ∧
    (applyStrategyChoice g handled 1).1 = true ∧
    (timeoutAutoResolve g handled).1.decision_history =
      g.decision_history ++
        [ { lap := g.current_lap, event_type := getCurrentEventType g handled,
            strategy_chosen := 1, strategy_params := chosenStrategyOf g handled 1 } ] ∧
    strategyNames.getD 1 "" = "Balanced" := by
  have h := applyStrategyChoice_valid g handled 1 (by norm_num)
  refine ⟨rfl, rfl, ?_, ?_, rfl⟩
  · rw [h]
  · simp only [timeoutAutoResolve]
    rw [h]

/-- C6: whenever a decision event fires and no precomputed result is
cached for it, the pause path answers with the fixed zero-latency
heuristic: the DECISION_POINT message carries used_fallback = true and
latency_ms = 0, and its recommendations are exactly the heuristic
output — no advisory or simulation call occurs on this path. -/
theorem fallback_zero_latency (s : RaceState) (e : EventType) (cached : Option RecResult)
    (hmiss : ¬(e = RAIN_START ∧ cached.isSome)) :
    (buildDecisionPointMsg s e cached).used_fallback = true ∧
    (buildDecisionPointMsg s e cached).latency_ms = 0 ∧
    (buildDecisionPointMsg s e cached).recommended =
      (generateHeuristicRecommendations s e).recommended ∧
    (buildDecisionPointMsg s e cached).avoid =
      (generateHeuristicRecommendations s e).avoid := by
  simp only [buildDecisionPointMsg, selectRecommendations, dif_neg hmiss,
    generateHeuristicRecommendations]
  refine ⟨?_, ?_, ?_, ?_⟩ <;> trivial

/-- Witness for C6: a reactive tire-critical event with an empty cache
is answered by the fallback with zero latency. -/
theorem fallback_zero_latency_witness :
    (buildDecisionPointMsg
        { lap := 20, total_laps := 57, position := 4, battery_soc := 50,
          tire_life := 20, fuel_remaining := 40 } TIRE_CRITICAL none).used_fallback = true ∧
    (buildDecisionPointMsg
        { lap := 20, total_laps := 57, position := 4, battery_soc := 50,
          tire_life := 20, fuel_remaining := 40 } TIRE_CRITICAL none).latency_ms = 0 := by
  have h := fallback_zero_latency
    { lap := 20, total_laps := 57, position := 4, battery_soc := 50,
      tire_life := 20, fuel_remaining := 40 } TIRE_CRITICAL none (by decide)
  exact ⟨h.1, h.2.1⟩

/-- Once the session-wide precompute flag is set, the check proposes no
further job, for any state and handled set. -/
theorem shouldPreComputeNextLap_started (g : GameState) (handled : List EventType) :
    shouldPreComputeNextLap g handled true = none := by
  simp [shouldPreComputeNextLap]

/-- A check sequence entered with the flag set dispatches nothing. -/
theorem preComputeTrace_started (checks : List (GameState × List EventType)) :
    preComputeTrace checks true = [] := by
  induction checks with
  | nil => rfl
  | cons c rest ih =>
    obtain ⟨g, h⟩ := c
    simp [preComputeTrace, preComputeStep, shouldPreComputeNextLap_started, ih]

/-- A check sequence entered with the flag clear dispatches at most one
job in total. -/
theorem preComputeTrace_cold_length (checks : List (GameState × List EventType)) :
    (preComputeTrace checks false).length ≤ 1 := by
  induction checks with
  | nil => simp [preComputeTrace]
  | cons c rest ih =>
    obtain ⟨g, h⟩ := c
    cases hstep : shouldPreComputeNextLap g h false with
    | some e =>
      simp [preComputeTrace, preComputeStep, hstep, preComputeTrace_started]
    | none =>
      simpa [preComputeTrace, preComputeStep, hstep] using ih

/-- Counterexample to C8: a safety-car precompute dispatched at lap 4
sets the session-wide started flag, so at lap 9 — when the scheduled
rain event is one lap away, unhandled, and no precomputation for rain
has ever been dispatched — no rain job is dispatched: the trace of the
two checks contains only the safety-car job. -/
theorem precompute_guard_counterexample :
    preComputeTrace
      [({ testGame with current_lap := 4, rain_lap := some 10, safety_car_lap := some 5 }, []),
       ({ testGame with current_lap := 9, rain_lap := some 10, safety_car_lap := some 5 }, [])]
      false = [SAFETY_CAR] ∧
    ({ testGame with current_lap := 9, rain_lap := some 10, safety_car_lap := some 5 } : GameState).rain_lap =
      some (({ testGame with current_lap := 9, rain_lap := some 10, safety_car_lap := some 5 } : GameState).current_lap + 1) ∧
    RAIN_START ∉ preComputeTrace
      [({ testGame with current_lap := 4, rain_lap := some 10, safety_car_lap := some 5 }, []),
       ({ testGame with current_lap := 9, rain_lap := some 10, safety_car_lap := some 5 }, [])]
      false := by
  refine ⟨?_, by decide, ?_⟩ <;> decide

/-- C8 amended: the duplicate guard is the single session-wide
`pre_compute_started` flag, not a per-event one.  When a scheduled
event is one lap away, not yet active, unhandled, and no precomputation
of any kind has started, the check proposes exactly that event's job;
once the flag is set, every further check — for any event — proposes
nothing, so at most one precomputation job is dispatched per session. -/
theorem precompute_single_dispatch (g : GameState) (handled : List EventType)
    (h1 : g.rain_lap = some (g.current_lap + 1)) (h2 : g.is_raining = false)
    (h3 : RAIN_START ∉ handled) :
    shouldPreComputeNextLap g handled false = some RAIN_START ∧
    (∀ (g2 : GameState) (hs : List EventType), shouldPreComputeNextLap g2 hs true = none) ∧
    (∀ checks : List (GameState × List EventType), preComputeTrace checks true = []) ∧
    (∀ checks : List (GameState × List EventType),
      (preComputeTrace checks false).length ≤ 1) ∧
    (∀ (g2 : GameState) (hs : List EventType), g2.rain_lap = none →
      g2.safety_car_lap = some (g2.current_lap + 1) → g2.safety_car_active = false →
      SAFETY_CAR ∉ hs → shouldPreComputeNextLap g2 hs false = some SAFETY_CAR) := by
  refine ⟨?_, shouldPreComputeNextLap_started, preComputeTrace_started,
    preComputeTrace_cold_length, ?_⟩
  · simp [shouldPreComputeNextLap, h1, h2, h3]
  · intro g2 hs hrl hscl hsca hmem
    simp [shouldPreComputeNextLap, hrl, hscl, hsca, hmem]

/-- Witness for the amended C8: a scheduled rain lap one lap away on a
cold session proposes the rain job, and any two-check sequence
dispatches at most one job. -/
theorem precompute_single_dispatch_witness :
    shouldPreComputeNextLap { testGame with current_lap := 2, rain_lap := some 3 } [] false =
      some RAIN_START ∧
    (preComputeTrace
      [({ testGame with current_lap := 2, rain_lap := some 3 }, []),
       ({ testGame with current_lap := 2, rain_lap := some 3 }, [])] false).length ≤ 1 := by
  have h := precompute_single_dispatch { testGame with current_lap := 2, rain_lap := some 3 }
    [] (by decide) (by decide) (by decide)
  exact ⟨h.1, h.2.2.2.1 _⟩

/-- Counterexample to C9: a message with an unknown type tag is
silently ignored — the handler sends no ERROR (no response at all) —
and a strategy selection arriving while no decision point is open
(current_decision_point = none) is answered with STRATEGY_APPLIED, not
with an ERROR. -/
theorem protocol_violation_counterexample :
    (handleClientMessage true testGame [] (ClientMsg.unknownType "PING")).response = none ∧
    (handleClientMessage true testGame [] (ClientMsg.unknownType "PING")).continues = true ∧
    testGame.current_decision_point = none ∧
    (handleClientMessage true testGame [] (ClientMsg.selectStrategy 1)).response =
      some (ServerMsg.STRATEGY_APPLIED 1) := by
  refine ⟨rfl, rfl, rfl, ?_⟩
  have h := applyStrategyChoice_valid testGame [] 1 (by norm_num)
  simp [handleClientMessage, h]

/-- C9 amended: an invalid strategy_id and a strategy selection with no
active game session are each answered with an ERROR message and the
session continues; a message with an unknown type is silently ignored
(no ERROR is sent) and the session continues; a valid selection is
confirmed with STRATEGY_APPLIED even when no decision point is open. -/
theorem protocol_violation_amended (g : GameState) (handled : List EventType)
    (sid : ℤ) (tag : String) :
    (¬(0 ≤ sid ∧ sid < 3) →
      (handleClientMessage true g handled (ClientMsg.selectStrategy sid)).response =
        some (ServerMsg.ERROR "Invalid strategy selection") ∧
      (handleClientMessage true g handled (ClientMsg.selectStrategy sid)).game = g ∧
      (handleClientMessage true g handled (ClientMsg.selectStrategy sid)).continues = true) ∧
    ((handleClientMessage false g handled (ClientMsg.selectStrategy sid)).response =
        some (ServerMsg.ERROR "No active game session") ∧
      (handleClientMessage false g handled (ClientMsg.selectStrategy sid)).continues = true) ∧
    ((handleClientMessage true g handled (ClientMsg.unknownType tag)).response = none ∧
      (handleClientMessage true g handled (ClientMsg.unknownType tag)).game = g ∧
      (handleClientMessage true g handled (ClientMsg.unknownType tag)).continues = true) ∧
    ((0 ≤ sid ∧ sid < 3) →
      (handleClientMessage true g handled (ClientMsg.selectStrategy sid)).response =
        some (ServerMsg.STRATEGY_APPLIED sid)) := by
  refine ⟨?_, ⟨?_, ?_⟩, ⟨rfl, rfl, rfl⟩, ?_⟩
  · intro h
    simp [handleClientMessage, applyStrategyChoice_invalid g handled sid h]
  · simp [handleClientMessage]
  · simp [handleClientMessage]
  · intro h
    simp [handleClientMessage, applyStrategyChoice_valid g handled sid h]

/-- Witness for the amended C9: an out-of-range id is rejected with the
invalid-selection ERROR, and an unknown message type gets no response. -/
theorem protocol_violation_amended_witness :
    (handleClientMessage true testGame [] (ClientMsg.selectStrategy 7)).response =
      some (ServerMsg.ERROR "Invalid strategy selection") ∧
    (handleClientMessage true testGame [] (ClientMsg.unknownType "NOPE")).response = none := by
  have h := protocol_violation_amended testGame [] 7 "NOPE"
  exact ⟨(h.1 (by norm_num)).1, h.2.2.1.1⟩
